import Mathlib

/-!
Verification of the hubverse-dashboards configuration and data-processing
core (`scripts/yaml_config_processor.py` and `scripts/data_processor.py`).

Python values are embedded shallowly: YAML scalars and containers become the
`Yaml` inductive, dates become day numbers (`Int`, via the standard civil
calendar conversion), machine floats only ever hold exact small integers or
decimal fractions here and are modelled by exact integer or rational
arithmetic, pandas frames become lists of row structures together with
column-presence flags, and fallible code returns `Except`.
-/

namespace HubDash

/-! ### Python string primitives

Python strings are embedded as Lean `String`s; the orderings and numeric
conversions the scripts rely on (`sorted(..., key=float)`, lexicographic
string sort in `pandas.sort_values`, `str.zfill`) are defined over the
underlying character lists so that everything evaluates by `decide`. -/

/-- Lexicographic comparison of character lists by code point, mirroring
Python string `<=`. -/
def strLeb : List Char → List Char → Bool
  | [], _ => true
  | _ :: _, [] => false
  | a :: as, b :: bs =>
    if a.toNat < b.toNat then true
    else if a.toNat = b.toNat then strLeb as bs
    else false

/-- Python string order `a <= b` (code-point lexicographic). -/
def strLe (a b : String) : Prop := strLeb a.data b.data = true

instance : DecidableRel strLe := fun a b => by
  unfold strLe; infer_instance

instance : IsTotal String strLe :=
  ⟨by
    have key : ∀ a b : List Char, strLeb a b = true ∨ strLeb b a = true := by
      intro a
      induction a with
      | nil => intro b; left; rfl
      | cons c cs ih =>
        intro b
        cases b with
        | nil => right; rfl
        | cons d ds =>
          rcases Nat.lt_trichotomy c.toNat d.toNat with h | h | h
          · left; simp [strLeb, h]
          · rcases ih ds with h' | h'
            · left; simp [strLeb, h, h']
            · right; simp [strLeb, h.symm, h']
          · right; simp [strLeb, h]
    exact fun a b => key a.data b.data⟩

instance : IsTrans String strLe :=
  ⟨by
    have key : ∀ a b c : List Char,
        strLeb a b = true → strLeb b c = true → strLeb a c = true := by
      intro a
      induction a with
      | nil => intro b c _ _; rfl
      | cons x xs ih =>
        intro b c hab hbc
        cases b with
        | nil => simp [strLeb] at hab
        | cons y ys =>
          cases c with
          | nil => simp [strLeb] at hbc
          | cons z zs =>
            simp only [strLeb] at hab hbc ⊢
            by_cases hxy : x.toNat < y.toNat
            · by_cases hyz : y.toNat < z.toNat
              · simp [Nat.lt_trans hxy hyz]
              · simp only [hyz, if_false] at hbc
                by_cases hyz' : y.toNat = z.toNat
                · simp [hyz' ▸ hxy]
                · simp [hyz'] at hbc
            · simp only [hxy, if_false] at hab
              by_cases hxy' : x.toNat = y.toNat
              · simp only [hxy', if_true] at hab
                by_cases hyz : y.toNat < z.toNat
                · simp [hxy' ▸ hyz]
                · simp only [hyz, if_false] at hbc
                  by_cases hyz' : y.toNat = z.toNat
                  · have hxz : x.toNat = z.toNat := hxy'.trans hyz'
                    have hlt : ¬ x.toNat < z.toNat := by omega
                    simp only [hyz', if_true] at hbc
                    simp [hlt, hxz, ih _ _ hab hbc]
                  · simp [hyz'] at hbc
              · simp [hxy'] at hab
    exact fun a b c h₁ h₂ => key a.data b.data c.data h₁ h₂⟩

/-- Numeric value of a digit character. -/
def digitVal (c : Char) : Nat := c.toNat - 48

/-- Value of a digit run read in base 10. -/
def digitsVal (cs : List Char) : Nat := cs.foldl (fun acc c => 10 * acc + digitVal c) 0

/-- Splits a character list at the first `'.'`. -/
def splitDot : List Char → List Char × List Char
  | [] => ([], [])
  | c :: cs =>
    if c = '.' then ([], cs)
    else
      let p := splitDot cs
      (c :: p.1, p.2)

/-- Exact value of a decimal string such as `"0.25"`, represented as a scaled
numerator together with the power-of-ten exponent of its denominator.
This is the number Python's `float(s)` denotes for the short decimal quantile
strings the configuration carries. -/
def qnum (s : String) : Nat × Nat :=
  let p := splitDot s.data
  (digitsVal p.1 * 10 ^ p.2.length + digitsVal p.2, p.2.length)

/-- Numeric order on decimal strings: the order `sorted(..., key=float)`
sorts by. -/
def qle (a b : String) : Prop :=
  (qnum a).1 * 10 ^ (qnum b).2 ≤ (qnum b).1 * 10 ^ (qnum a).2

instance : DecidableRel qle := fun a b => by
  unfold qle; infer_instance

instance : IsTotal String qle := ⟨fun _ _ => Nat.le_total _ _⟩

instance : IsTrans String qle :=
  ⟨by
    intro a b c h₁ h₂
    unfold qle at *
    have h₁' := Nat.mul_le_mul_right (10 ^ (qnum c).2) h₁
    have h₂' := Nat.mul_le_mul_right (10 ^ (qnum a).2) h₂
    have hpos : 0 < 10 ^ (qnum b).2 := Nat.pos_pow_of_pos _ (by decide)
    have hle : (qnum a).1 * 10 ^ (qnum c).2 * 10 ^ (qnum b).2 ≤
        (qnum c).1 * 10 ^ (qnum a).2 * 10 ^ (qnum b).2 := by
      calc (qnum a).1 * 10 ^ (qnum c).2 * 10 ^ (qnum b).2
          = (qnum a).1 * 10 ^ (qnum b).2 * 10 ^ (qnum c).2 := by ring
        _ ≤ (qnum b).1 * 10 ^ (qnum a).2 * 10 ^ (qnum c).2 := h₁'
        _ = (qnum b).1 * 10 ^ (qnum c).2 * 10 ^ (qnum a).2 := by ring
        _ ≤ (qnum c).1 * 10 ^ (qnum b).2 * 10 ^ (qnum a).2 := h₂'
        _ = (qnum c).1 * 10 ^ (qnum a).2 * 10 ^ (qnum b).2 := by ring
    exact Nat.le_of_mul_le_mul_right hle hpos⟩

/-- Python `str.zfill(2)`: left-pad with `'0'` to length two. -/
def zfill2 (s : String) : String :=
  if s.data.length < 2 then ⟨List.replicate (2 - s.data.length) '0' ++ s.data⟩ else s

/-! ### Dates

`datetime.date` / pandas timestamps are embedded as day numbers. -/

/-- Day number of a Gregorian calendar date (days since 0000-03-01),
for years from 1 on; only differences and comparisons of these values are
ever used, mirroring `datetime` subtraction and ordering. -/
def daysFromCivil (y m d : Nat) : Nat :=
  let yp := if m ≤ 2 then y - 1 else y
  let era := yp / 400
  let yoe := yp % 400
  let mp := if 2 < m then m - 3 else m + 9
  let doy := (153 * mp + 2) / 5 + d - 1
  let doe := yoe * 365 + yoe / 4 - yoe / 100 + doy
  era * 146097 + doe

/-- A concrete calendar date as the `Int` day number used by the embedding. -/
def mkDate (y m d : Nat) : Int := daysFromCivil y m d

def isLeap (y : Nat) : Bool := y % 4 = 0 && (y % 100 ≠ 0 || y % 400 = 0)

def daysInMonth (y m : Nat) : Nat :=
  if m = 2 then (if isLeap y then 29 else 28)
  else if m = 4 || m = 6 || m = 9 || m = 11 then 30
  else 31

/-- Splits a character list on `'-'`. -/
def splitDash : List Char → List (List Char)
  | [] => [[]]
  | c :: cs =>
    if c = '-' then [] :: splitDash cs
    else
      match splitDash cs with
      | p :: ps => (c :: p) :: ps
      | [] => [[c]]

/-- The date-string parsing of `ForecastPeriod.__post_init__` (lines 69-83),
at day granularity: `"Z"` dropped, the text before any `"T"`/space taken,
then read as `year-month-day` digits with calendar validation — the strings
`datetime.fromisoformat` / `strptime("%Y-%m-%d")` accept; `none` is the
uncaught `ValueError` for anything else. -/
def parseIsoDate? (s : String) : Option Int :=
  let cleaned := s.data.filter (fun c => c ≠ 'Z')
  let token := cleaned.takeWhile (fun c => c ≠ 'T' && c ≠ ' ')
  match splitDash token with
  | [ys, ms, ds] =>
    let isDigit := fun (c : Char) => 48 ≤ c.toNat && c.toNat ≤ 57
    if ys.all isDigit && ms.all isDigit && ds.all isDigit
        && decide (1 ≤ ys.length) && decide (ys.length ≤ 4)
        && decide (1 ≤ ms.length) && decide (ms.length ≤ 2)
        && decide (1 ≤ ds.length) && decide (ds.length ≤ 2) then
      let y := digitsVal ys
      let m := digitsVal ms
      let d := digitsVal ds
      if 1 ≤ y && 1 ≤ m && m ≤ 12 && 1 ≤ d && d ≤ daysInMonth y m then
        some (mkDate y m d)
      else none
    else none
  | _ => none

/-! ### The parsed YAML document

`yaml.safe_load` hands the configuration processor a Python object tree;
it is embedded as the `Yaml` inductive. ISO dates are parsed by the YAML
loader into date objects, hence the `date` constructor. Mappings keep their
key insertion order, like Python dicts. -/

inductive Yaml where
  | str (s : String)
  | int (n : Int)
  | bool (b : Bool)
  | date (d : Int)
  | list (xs : List Yaml)
  | dict (xs : List (String × Yaml))
  | null

/-- Python `d[k]` / `k in d` on a parsed mapping (keys are unique after YAML
parsing, so first match is the binding). Returns `none` when the value is not
a mapping or lacks the key. -/
def Yaml.dGet? : Yaml → String → Option Yaml
  | .dict xs, k => (xs.find? (fun p => p.1 = k)).map (·.2)
  | _, _ => none

/-- Python truthiness of an embedded value. -/
def Yaml.truthy : Yaml → Bool
  | .str s => !s.data.isEmpty
  | .int n => n != 0
  | .bool b => b
  | .date _ => true
  | .list xs => !xs.isEmpty
  | .dict xs => !xs.isEmpty
  | .null => false

def Yaml.asStr? : Yaml → Option String
  | .str s => some s
  | _ => none

def Yaml.asInt? : Yaml → Option Int
  | .int n => some n
  | _ => none

def Yaml.asDate? : Yaml → Option Int
  | .date d => some d
  | _ => none

def Yaml.asList? : Yaml → Option (List Yaml)
  | .list xs => some xs
  | _ => none

/-- Items of a mapping (empty for non-mappings, matching the scripts'
`isinstance(item, dict)` guards that skip anything else). -/
def Yaml.itemsD : Yaml → List (String × Yaml)
  | .dict xs => xs
  | _ => []

/-- Entries of a list value (empty for non-lists; the scripts only ever
iterate values their own sample configurations shape as lists). -/
def Yaml.entriesD : Yaml → List Yaml
  | .list xs => xs
  | _ => []

/-- Python `dict.update`: each binding of `new` overwrites an existing key in
place or is appended, preserving insertion order. -/
def dictUpdate (acc new : List (String × Yaml)) : List (String × Yaml) :=
  new.foldl
    (fun a kv =>
      if a.any (fun p => p.1 = kv.1) then
        a.map (fun p => if p.1 = kv.1 then (p.1, kv.2) else p)
      else a ++ [kv])
    acc

/-- Merge of a YAML list of single-key mappings into one mapping, the
`config_dict.update(prop)` loop idiom used throughout the parser. -/
def mergeProps (props : List Yaml) : List (String × Yaml) :=
  props.foldl (fun acc p => dictUpdate acc p.itemsD) []

/-- The document root: a list of single-key mapping entries
(`raw_config` in `DashboardConfig`). -/
abbrev RawConfig := List Yaml

/-- Embeds `DashboardConfig._get_value`: the value of `key` in the first root
entry that is a mapping containing it. -/
def get_value : RawConfig → String → Option Yaml
  | [], _ => none
  | item :: rest, key =>
    match item.dGet? key with
    | some v => some v
    | none => get_value rest key

/-- The inner `for sub_item in parent_data` scan of
`DashboardConfig._get_nested_value`. -/
def findChild : List Yaml → String → Option Yaml
  | [], _ => none
  | sub :: subs, child =>
    match sub.dGet? child with
    | some v => some v
    | none => findChild subs child

/-- Embeds `DashboardConfig._get_nested_value`: scans root entries containing
`parent`, and inside each one whose value is a list scans for the first
single-key mapping carrying `child`; moves on to later root entries when an
earlier one yields no hit. -/
def get_nested_value : RawConfig → String → String → Option Yaml
  | [], _, _ => none
  | item :: rest, parent, child =>
    match item.dGet? parent with
    | some (.list pd) =>
      match findChild pd child with
      | some v => some v
      | none => get_nested_value rest parent child
    | some _ => get_nested_value rest parent child
    | none => get_nested_value rest parent child

/-- Lookup in an already-merged mapping, Python `cd.get(k)` / `cd[k]`. -/
def lookupKey (xs : List (String × Yaml)) (k : String) : Option Yaml :=
  (xs.find? (fun p => p.1 = k)).map (·.2)

/-- Python `str(v)` restricted to the string scalars the configurations carry
(quantile levels, names); non-strings map to the empty string. -/
def Yaml.asStrD (y : Yaml) : String := y.asStr?.getD ""

/-- Truthiness of an optional lookup result, Python `bool(d.get(k))`. -/
def optTruthy (v : Option Yaml) : Bool :=
  match v with
  | some y => y.truthy
  | none => false

/-- Python `v == "s"` for a possibly absent value. -/
def isStrVal (v : Option Yaml) (s : String) : Bool :=
  match v with
  | some (.str t) => t = s
  | _ => false

/-! ### Python exceptions

Exceptions the scripts can raise outside the caught `KeyError`/`ValueError`
regions. `unmodeled` marks document shapes the embedding's domain predicate
`docOk` excludes: the source carries such values onward and only misbehaves
in later code paths that this embedding does not follow (for instance an
integer in a period-date field survives `__post_init__` unchanged and only
the later comparison or `strftime` call trips over it). -/

inductive PyExc where
  | attribute_error (name : String)
  | type_error
  | value_error
  | unmodeled (what : String)
  deriving DecidableEq

/-! ### Validation findings

One constructor per `_add_error` / `_add_warning` call site of
`yaml_config_processor.py`, carrying the data interpolated into the message. -/

inductive Finding where
  | data_source_conflict
  | missing_period_field (periodId : String) (fieldName : String)
  | missing_dynamic_field (fieldName : String)
  | dup_period_id (id : String)
  | dup_display_string (display : String) (id : String)
  | start_after_end (id : String)
  | earliest_negative_range (id : String)
  | latest_positive_range (id : String)
  | location_data_missing
  | location_name_mismatch (code : String) (expected : String)
  | time_unit_required
  | time_unit_too_small (v : Int)
  | time_unit_too_large (v : Int)
  | horizons_required
  | observation_format_defaulted
  | models_missing_colors (names : List String)
  | invalid_prediction_interval
  | invalid_evaluation_interval
  | target_missing_periods (target : String)
  | target_missing_key (target : String)
  | baseline_missing
  | baseline_not_in_models
  deriving DecidableEq

/-! ### Config schema model -/

/-- Embeds the `ForecastPeriod` dataclass. Dynamic periods receive the
placeholder date 2000-01-01 for both bounds. -/
structure ForecastPeriod where
  period_id : String
  display_string : String
  start_date : Int
  end_date : Int
  is_dynamic : Bool := false
  time_anchor : Option (List (String × Yaml)) := none
  range_calculation : Option Int := none

/-- Embeds the `TargetConfig` dataclass. -/
structure TargetConfig where
  target_column_in_target_data : String
  corresponding_key_in_model_output : String
  forecast_periods : List String
  display_name : String

/-- Embeds the `PredictionInterval` dataclass; `output_type_ids` is stored
sorted ascending by numeric value as `__post_init__` does. -/
structure PredictionInterval where
  level : Int
  output_type_ids : List String

/-- Embeds the `ModelConfig` dataclass. -/
structure ModelConfig where
  model_name : String
  color_hex : Option Yaml := none
  display_name : String

/-- Embeds the `ColumnMapping` dataclass. -/
structure ColumnMapping where
  date_col : String
  observation_col : String
  location_col : Option String
  location_name_col : Option String
  target_col : Option String
  as_of_col : Option String
  reference_date_col : String
  target_end_date_col : String
  model_target_col : String
  horizon_col : String
  output_type_col : String
  output_type_id_col : String
  value_col : String

/-- The `location_config` dictionary built by `_parse_location_data`. -/
structure LocationData where
  csv_path : Option Yaml := none
  code_col : Option Yaml := none
  name_col : Option Yaml := none
  manual_mapping : Option (List (String × Yaml)) := none

/-- Filesystem facts consumed by `_validate_data_source_links` (existence of
the `target-data/` and `model-output/` directories next to the config file). -/
structure Env where
  has_local_target : Bool
  has_local_model : Bool

/-! ### Parsing (`DashboardConfig._parse_*`) -/

/-- Embeds `_validate_data_source_links`. -/
def validate_data_source_links (target_link model_output_link : Option Yaml) (env : Env) :
    List Finding :=
  let has_online := optTruthy target_link || optTruthy model_output_link
  let has_local := env.has_local_target || env.has_local_model
  if has_online && has_local then [Finding.data_source_conflict] else []

/-- The date coercion `ForecastPeriod.__post_init__` performs on a period
bound: a parsed YAML date scalar is kept, a string is parsed (raising the
uncaught `ValueError` when it does not parse); any other value is carried
onward raw by the source and only misbehaves later — outside the embedding's
`docOk` domain, marked `unmodeled`. -/
def asPyDate : Yaml → Except PyExc Int
  | .date d => .ok d
  | .str s =>
    match parseIsoDate? s with
    | some d => .ok d
    | none => .error .value_error
  | _ => .error (.unmodeled "a period date that is neither a date scalar nor a string")

/-- One `period_id, period_data` entry of `_parse_forecast_periods`: the
caught `KeyError`s become the finding (key accesses happen in constructor-
argument order, before `__post_init__` parses the dates, start first). -/
def parseStaticPeriodEntry (period_id : String) (period_data : Yaml) :
    Except PyExc (Option ForecastPeriod × List Finding) :=
  let cd := mergeProps period_data.entriesD
  match lookupKey cd "display_string" with
  | none => .ok (none, [.missing_period_field period_id "display_string"])
  | some ds =>
    match lookupKey cd "start_date" with
    | none => .ok (none, [.missing_period_field period_id "start_date"])
    | some sv =>
      match lookupKey cd "end_date" with
      | none => .ok (none, [.missing_period_field period_id "end_date"])
      | some ev =>
        match asPyDate sv with
        | .error e => .error e
        | .ok sd =>
          match asPyDate ev with
          | .error e => .error e
          | .ok ed =>
            let pid := match lookupKey cd "forecast_period_id" with
                       | some v => v.asStrD
                       | none => period_id
            .ok (some { period_id := pid, display_string := ds.asStrD,
                        start_date := sd, end_date := ed }, [])

/-- Embeds `_parse_forecast_periods`: every root entry carrying
`forecast_periods` contributes, in document order; an uncaught date-parse
`ValueError` aborts the whole construction. -/
def parse_forecast_periods (rc : RawConfig) :
    Except PyExc (List ForecastPeriod × List Finding) :=
  rc.foldl
    (fun acc item =>
      match item.dGet? "forecast_periods" with
      | none => acc
      | some plist =>
        plist.entriesD.foldl
          (fun acc period_item =>
            period_item.itemsD.foldl
              (fun acc pd =>
                match acc with
                | .error e => .error e
                | .ok st =>
                  match parseStaticPeriodEntry pd.1 pd.2 with
                  | .error e => .error e
                  | .ok r => .ok (st.1 ++ r.1.toList, st.2 ++ r.2))
              acc)
          acc)
    (.ok ([], []))

/-- The `config_dict` construction of `_parse_dynamic_periods`, where a
property carrying `time_anchor` is flattened into one anchor mapping. -/
def buildDynamicConfigDict (period_data : Yaml) : List (String × Yaml) :=
  period_data.entriesD.foldl
    (fun cd prop =>
      match prop with
      | .dict kvs =>
        match lookupKey kvs "time_anchor" with
        | some anchorVal =>
          let anchorDict := anchorVal.entriesD.foldl (fun ad ai => dictUpdate ad ai.itemsD) []
          dictUpdate cd [("time_anchor", .dict anchorDict)]
        | none => dictUpdate cd kvs
      | _ => cd)
    []

/-- One dynamic-period entry of `_parse_dynamic_periods`. -/
def parseDynamicPeriodEntry (period_data : Yaml) : Option ForecastPeriod × List Finding :=
  let cd := buildDynamicConfigDict period_data
  match lookupKey cd "special_period_id" with
  | none => (none, [.missing_dynamic_field "special_period_id"])
  | some pid =>
    match lookupKey cd "display_string" with
    | none => (none, [.missing_dynamic_field "display_string"])
    | some ds =>
      (some { period_id := pid.asStrD, display_string := ds.asStrD,
              start_date := mkDate 2000 1 1, end_date := mkDate 2000 1 1,
              is_dynamic := true,
              time_anchor := (lookupKey cd "time_anchor").map Yaml.itemsD,
              range_calculation := (lookupKey cd "range_calculation").bind Yaml.asInt? }, [])

/-- Embeds `_parse_dynamic_periods`. -/
def parse_dynamic_periods (rc : RawConfig) : List ForecastPeriod × List Finding :=
  rc.foldl
    (fun acc item =>
      match item.dGet? "special_forecast_periods" with
      | none => acc
      | some sps =>
        sps.entriesD.foldl
          (fun acc sp_item =>
            match sp_item.dGet? "dynamic_periods" with
            | none => acc
            | some dyn =>
              dyn.entriesD.foldl
                (fun acc period_item =>
                  period_item.itemsD.foldl
                    (fun acc pd =>
                      let r := parseDynamicPeriodEntry pd.2
                      (acc.1 ++ r.1.toList, acc.2 ++ r.2))
                    acc)
                acc)
          acc)
    ([], [])

/-! ### Forecast-period validation (`_validate_forecast_periods`) -/

/-- Loop state of `_validate_forecast_periods`: the two seen-sets and the
findings accumulated so far. -/
structure VFPState where
  seen_ids : List String := []
  seen_displays : List String := []
  errors : List Finding := []
  warnings : List Finding := []

/-- One iteration of the `_validate_forecast_periods` loop. -/
def vfpStep (s : VFPState) (p : ForecastPeriod) : VFPState :=
  let e1 := if p.period_id ∈ s.seen_ids then [Finding.dup_period_id p.period_id] else []
  let w1 := if p.display_string ∈ s.seen_displays then
              [Finding.dup_display_string p.display_string p.period_id] else []
  let e2 := if !p.is_dynamic && decide (p.start_date > p.end_date) then
              [Finding.start_after_end p.period_id] else []
  let e3 :=
    match p.time_anchor with
    | some ta =>
      if p.is_dynamic && !ta.isEmpty then
        let anchor_on := lookupKey ta "anchor_on"
        match p.range_calculation with
        | some n =>
          (if isStrVal anchor_on "earliest" && decide (n < 0) then
             [Finding.earliest_negative_range p.period_id] else [])
          ++ (if isStrVal anchor_on "latest" && decide (n > 0) then
                [Finding.latest_positive_range p.period_id] else [])
        | none => []
      else []
    | none => []
  { seen_ids := p.period_id :: s.seen_ids,
    seen_displays := p.display_string :: s.seen_displays,
    errors := s.errors ++ e1 ++ e2 ++ e3,
    warnings := s.warnings ++ w1 }

/-- Embeds `_validate_forecast_periods`, run over
`forecast_periods + dynamic_periods`; returns `(errors, warnings)`. -/
def validate_forecast_periods (periods : List ForecastPeriod) : List Finding × List Finding :=
  let s := periods.foldl vfpStep {}
  (s.errors, s.warnings)

/-! ### Location configuration -/

/-- The root scan of `_parse_single_location_mapping` (already knowing the
mode flag is set): the first root entry whose `single_location_mapping` value
is truthy yields the merged mapping. -/
def findSingleLocMapping : RawConfig → Option (List (String × Yaml))
  | [] => none
  | item :: rest =>
    match item.dGet? "single_location_mapping" with
    | some ml =>
      if ml.truthy then some (ml.entriesD.foldl (fun m e => dictUpdate m e.itemsD) [])
      else findSingleLocMapping rest
    | none => findSingleLocMapping rest

/-- Embeds `_parse_single_location_mapping`. -/
def parse_single_location_mapping (rc : RawConfig) (is_single_location : Bool) :
    Option (List (String × Yaml)) :=
  if is_single_location then findSingleLocMapping rc else none

/-- Embeds `_parse_location_data`. -/
def parse_location_data (rc : RawConfig) : LocationData :=
  rc.foldl
    (fun lc item =>
      match item.dGet? "location_data" with
      | none => lc
      | some dl =>
        dl.entriesD.foldl
          (fun lc di =>
            match di with
            | .dict kvs =>
              let lc := match lookupKey kvs "location_data_csv_file_path" with
                        | some v => { lc with csv_path := some v }
                        | none => lc
              let lc := match lookupKey kvs "location_code_col_name" with
                        | some v => { lc with code_col := some v }
                        | none => lc
              let lc := match lookupKey kvs "location_name_col_name" with
                        | some v => { lc with name_col := some v }
                        | none => lc
              match lookupKey kvs "location_mapping" with
              | some ml =>
                let mm := ml.entriesD.foldl (fun m e => dictUpdate m e.itemsD) []
                { lc with manual_mapping := some mm }
              | none => lc
            | _ => lc)
          lc)
    {}

/-- The sample of reference state mappings hard-coded in
`_validate_location_data`. -/
def correct_mappings : List (String × String) :=
  [("01", "Alabama"), ("02", "Alaska"), ("04", "Arizona"), ("06", "California"),
   ("36", "New York"), ("48", "Texas"), ("12", "Florida"), ("17", "Illinois")]

/-- Python `name != expected` where `name` is an arbitrary value and
`expected` a string. -/
def nameMismatch (v : Yaml) (expected : String) : Bool :=
  match v with
  | .str s => s != expected
  | _ => true

/-- Embeds `_validate_location_data`; returns `(errors, warnings)`. In
single-location mode the method returns immediately with no findings. -/
def validate_location_data (is_single_location : Bool) (ld : LocationData) :
    List Finding × List Finding :=
  if is_single_location then ([], [])
  else
    let has_csv := optTruthy ld.csv_path
    let has_mapping := match ld.manual_mapping with
                       | some m => !m.isEmpty
                       | none => false
    if !has_csv && !has_mapping then ([Finding.location_data_missing], [])
    else
      let mm := ld.manual_mapping.getD []
      let warns := mm.foldl
        (fun ws kv =>
          match correct_mappings.find? (fun c => c.1 = kv.1) with
          | some c =>
            if nameMismatch kv.2 c.2 then ws ++ [Finding.location_name_mismatch kv.1 c.2]
            else ws
          | none => ws)
        []
      ([], warns)

/-! ### Remaining sections -/

/-- Embeds `_validate_time_unit`; returns `(errors, warnings)`. -/
def validate_time_unit (n : Int) : List Finding × List Finding :=
  ((if n < 1 then [Finding.time_unit_too_small n] else []),
   (if n > 14 then [Finding.time_unit_too_large n] else []))

/-- One target entry of `_parse_targets`; returns
`(target?, errors, warnings)`. -/
def parseTargetEntry (all_period_ids : List String) (target_col : String)
    (target_data : Yaml) : Option TargetConfig × List Finding × List Finding :=
  let cd := mergeProps target_data.entriesD
  let fpRaw := lookupKey cd "for_forecast_periods"
  let useDefault := !optTruthy fpRaw
  let fps := if useDefault then all_period_ids
             else ((fpRaw.getD .null).entriesD.filterMap Yaml.asStr?)
  let w := if useDefault then [Finding.target_missing_periods target_col] else []
  match lookupKey cd "corresponding_key_in_model_output_target_column" with
  | none => (none, [Finding.target_missing_key target_col], w)
  | some ck =>
    (some { target_column_in_target_data := target_col,
            corresponding_key_in_model_output := ck.asStrD,
            forecast_periods := fps,
            display_name := match lookupKey cd "display_name" with
                            | some v => v.asStrD
                            | none => target_col }, [], w)

/-- Embeds `_parse_targets`; returns `(targets, errors, warnings)`. -/
def parse_targets (rc : RawConfig) (all_period_ids : List String) :
    List TargetConfig × List Finding × List Finding :=
  rc.foldl
    (fun acc item =>
      match item.dGet? "targets" with
      | none => acc
      | some tl =>
        tl.entriesD.foldl
          (fun acc ti =>
            ti.itemsD.foldl
              (fun acc p =>
                let r := parseTargetEntry all_period_ids p.1 p.2
                (acc.1 ++ r.1.toList, acc.2.1 ++ r.2.1, acc.2.2 ++ r.2.2))
              acc)
          acc)
    ([], [], [])

/-- Default of an optional header-mapping entry, `m.get(k, default)`. -/
def strOr (v : Option Yaml) (d : String) : String :=
  match v with
  | some y => y.asStrD
  | none => d

/-- Embeds `_parse_column_mappings`. -/
def parse_column_mappings (rc : RawConfig) : ColumnMapping :=
  let tm := rc.foldl
    (fun m item =>
      match item.dGet? "target_data_header_mapping" with
      | some ml => ml.entriesD.foldl (fun m e => dictUpdate m e.itemsD) m
      | none => m)
    []
  let mm := rc.foldl
    (fun m item =>
      match item.dGet? "model_output_data_header_mapping" with
      | some ml => ml.entriesD.foldl (fun m e => dictUpdate m e.itemsD) m
      | none => m)
    []
  { date_col := strOr (lookupKey tm "date_col_name") "date",
    observation_col := strOr (lookupKey tm "observation_col_name") "value",
    location_col := (lookupKey tm "location_col_name").bind Yaml.asStr?,
    location_name_col := (lookupKey tm "location_name_col_name").bind Yaml.asStr?,
    target_col := (lookupKey tm "target_col_name").bind Yaml.asStr?,
    as_of_col := (lookupKey tm "as_of_col_name").bind Yaml.asStr?,
    reference_date_col := strOr (lookupKey mm "reference_date_col_name") "reference_date",
    target_end_date_col := strOr (lookupKey mm "target_end_date_col_name") "target_end_date",
    model_target_col := strOr (lookupKey mm "target_col_name") "target",
    horizon_col := strOr (lookupKey mm "horizon_col_name") "horizon",
    output_type_col := strOr (lookupKey mm "output_type_col_name") "output_type",
    output_type_id_col := strOr (lookupKey mm "output_type_id_col_name") "output_type_id",
    value_col := strOr (lookupKey mm "value_col_name") "value" }

/-- Embeds `_parse_models`. -/
def parse_models (rc : RawConfig) : List ModelConfig :=
  rc.foldl
    (fun ms item =>
      match item.dGet? "available_models" with
      | none => ms
      | some ml =>
        ml.entriesD.foldl
          (fun ms mi =>
            mi.itemsD.foldl
              (fun ms p =>
                let props := mergeProps p.2.entriesD
                ms ++ [{ model_name := p.1,
                         color_hex := lookupKey props "color_hex",
                         display_name := match lookupKey props "display_name" with
                                         | some v => v.asStrD
                                         | none => p.1 }])
              ms)
          ms)
    []

/-- The `DEFAULT_COLOR_PALETTE` class constant. -/
def DEFAULT_COLOR_PALETTE : List String :=
  ["#4CAF50", "#2196F3", "#FF9800", "#9C27B0", "#F44336",
   "#00BCD4", "#FFEB3B", "#795548", "#607D8B", "#E91E63"]

/-- Embeds `_validate_and_assign_model_colors`: one batch warning naming every
model without a truthy `color_hex`, then cyclic palette assignment. -/
def validate_and_assign_model_colors (models : List ModelConfig) :
    List ModelConfig × List Finding :=
  let missing := (models.filter (fun m => !optTruthy m.color_hex)).map (·.model_name)
  let warns := if missing.isEmpty then [] else [Finding.models_missing_colors missing]
  let assigned := (models.foldl
    (fun (acc : List ModelConfig × Nat) m =>
      if optTruthy m.color_hex then (acc.1 ++ [m], acc.2)
      else
        let col := DEFAULT_COLOR_PALETTE.getD (acc.2 % DEFAULT_COLOR_PALETTE.length) ""
        (acc.1 ++ [{ m with color_hex := some (.str col) }], acc.2 + 1))
    ([], 0)).1
  (assigned, warns)

/-- Python `int(s)` on a decimal literal string. -/
def parseInt? (s : String) : Option Int :=
  match s.data with
  | '-' :: rest =>
    if rest.isEmpty || rest.any (fun c => c.toNat < 48 || 57 < c.toNat) then none
    else some (-(digitsVal rest : Int))
  | cs =>
    if cs.isEmpty || cs.any (fun c => c.toNat < 48 || 57 < c.toNat) then none
    else some (digitsVal cs)

/-- Decimal digits of a natural number (fuel-bounded division loop). -/
def natDigitsAux : Nat → Nat → List Char
  | 0, _ => []
  | _ + 1, 0 => []
  | fuel + 1, n => natDigitsAux fuel (n / 10) ++ [Char.ofNat (48 + n % 10)]

/-- Python `str(n)` for an integer. -/
def intPyStr (n : Int) : String :=
  if n = 0 then "0"
  else if n < 0 then ⟨'-' :: natDigitsAux n.natAbs n.natAbs⟩
  else ⟨natDigitsAux n.natAbs n.natAbs⟩

/-- Python `str(x)` for the values that can pass the `float(str(x))` check
below (strings and integers; everything else fails that check first). -/
def pyStr : Yaml → String
  | .str s => s
  | .int n => intPyStr n
  | _ => ""

/-- Whether a token is a plain decimal literal `float(...)` accepts: an
optional minus sign, digits with at most one dot, at least one digit — the
quantile tokens configurations carry. -/
def isDecimalStr (cs0 : List Char) : Bool :=
  let cs := match cs0 with
            | '-' :: rest => rest
            | _ => cs0
  let isDigit := fun (c : Char) => 48 ≤ c.toNat && c.toNat ≤ 57
  decide (cs.count '.' ≤ 1) && cs.all (fun c => c = '.' || isDigit c) && cs.any isDigit

/-- Whether `float(str(x))` succeeds for a value `x` of a quantile list:
numeric strings and integers do; booleans (`"True"`), dates
(`"2024-01-01"`), `None`, lists and dicts all raise `ValueError`. -/
def pyFloatable : Yaml → Bool
  | .str s => isDecimalStr s.data
  | .int _ => true
  | _ => false

/-- The `PredictionInterval` constructor together with its `__post_init__`
sort of the quantile strings ascending by numeric value. -/
def mkPredictionInterval (level : Int) (ids : List Yaml) : PredictionInterval :=
  { level := level, output_type_ids := List.insertionSort qle (ids.map pyStr) }

/-- One interval entry of `_parse_prediction_intervals` /
`_parse_evaluation_intervals`; `none` is the caught `KeyError`/`ValueError` —
the latter also fires inside `PredictionInterval.__post_init__` when
`float(str(x))` fails for some listed quantile id. A non-list
`uses_output_type_ids` value instead raises an uncaught `TypeError` in the
source when `__post_init__` iterates it; that shape lies outside `docOk` and
is not modelled. -/
def parseIntervalEntry (level : String) (level_data : Yaml) : Option PredictionInterval :=
  let props := mergeProps level_data.entriesD
  match parseInt? level with
  | none => none
  | some lv =>
    match lookupKey props "uses_output_type_ids" with
    | none => none
    | some (.list xs) => if xs.all pyFloatable then some (mkPredictionInterval lv xs) else none
    | some _ => none

/-- Embeds `_parse_prediction_intervals`; invalid entries collect an error. -/
def parse_prediction_intervals (rc : RawConfig) : List PredictionInterval × List Finding :=
  rc.foldl
    (fun acc item =>
      match item.dGet? "prediction_intervals" with
      | none => acc
      | some il =>
        il.entriesD.foldl
          (fun acc ii =>
            ii.itemsD.foldl
              (fun acc p =>
                match parseIntervalEntry p.1 p.2 with
                | some itv => (acc.1 ++ [itv], acc.2)
                | none => (acc.1, acc.2 ++ [Finding.invalid_prediction_interval]))
              acc)
          acc)
    ([], [])

/-- Embeds `_parse_evaluation_intervals`; invalid entries collect a warning. -/
def parse_evaluation_intervals (rc : RawConfig) : List PredictionInterval × List Finding :=
  rc.foldl
    (fun acc item =>
      match item.dGet? "evaluations_prediction_intervals" with
      | none => acc
      | some il =>
        il.entriesD.foldl
          (fun acc ii =>
            ii.itemsD.foldl
              (fun acc p =>
                match parseIntervalEntry p.1 p.2 with
                | some itv => (acc.1 ++ [itv], acc.2)
                | none => (acc.1, acc.2 ++ [Finding.invalid_evaluation_interval]))
              acc)
          acc)
    ([], [])

/-- Embeds `_validate_baseline_model`; returns `(errors, warnings)` — the
method only ever emits warnings. -/
def validate_baseline_model (baseline : Option Yaml) (models : List ModelConfig) :
    List Finding × List Finding :=
  if !optTruthy baseline then ([], [Finding.baseline_missing])
  else
    let names := models.map (·.model_name)
    let inList := match baseline with
                  | some (.str s) => names.contains s
                  | _ => false
    if !inList then ([], [Finding.baseline_not_in_models]) else ([], [])

/-! ### The root aggregate -/

/-- Embeds the `DashboardConfig` attributes populated by
`_parse_and_validate`. -/
structure DashboardConfig where
  target_data_link : Option Yaml
  model_output_link : Option Yaml
  forecast_periods : List ForecastPeriod
  dynamic_periods : List ForecastPeriod
  is_single_location : Bool
  single_location_mapping : Option (List (String × Yaml))
  location_data : LocationData
  is_single_target : Bool
  targets : List TargetConfig
  time_unit : Option Yaml
  horizons : Option Yaml
  column_mapping : ColumnMapping
  target_data_observation_format : Yaml
  models : List ModelConfig
  prediction_intervals : List PredictionInterval
  evaluation_intervals : List PredictionInterval
  model_output_naming_standard : Yaml
  baseline_model_for_relative_wis : Option Yaml
  validation_errors : List Finding
  validation_warnings : List Finding

/-- Embeds the `time_unit` section of `_parse_and_validate` (lines 204-208
together with `_validate_time_unit`): a missing or falsy value is the
required-field error; a truthy integer — or boolean, an `int` subtype in
Python — is compared against the bounds; any other truthy value makes
`self.time_unit < 1` raise `TypeError`, an individual rule raising and
short-circuiting construction with no accumulated error reported. -/
def time_unit_step (rc : RawConfig) : Except PyExc (List Finding × List Finding) :=
  match get_value rc "time_unit" with
  | none => .ok ([Finding.time_unit_required], [])
  | some v =>
    if v.truthy then
      match v with
      | .int n => .ok (validate_time_unit n)
      | .bool b => .ok (validate_time_unit (if b then 1 else 0))
      | _ => .error .type_error
    else .ok ([Finding.time_unit_required], [])

/-- Embeds the body of `_parse_and_validate` up to (but excluding) the final
aggregate check, given the two sections that can raise (the static-period
parse and the time-unit rule) already evaluated: every remaining section is
parsed, every remaining validation rule runs, and the two finding lists
accumulate in evaluation order. -/
def assemble_config (rc : RawConfig) (env : Env)
    (fp : List ForecastPeriod × List Finding)
    (vtu : List Finding × List Finding) : DashboardConfig :=
  let target_data_link := get_nested_value rc "links_to_hubverse_compatible_data" "target_data_link"
  let model_output_link := get_nested_value rc "links_to_hubverse_compatible_data" "model_output_link"
  let e_links := validate_data_source_links target_data_link model_output_link env
  let dp := parse_dynamic_periods rc
  let vfp := validate_forecast_periods (fp.1 ++ dp.1)
  let is_single_location := optTruthy (get_value rc "is_single_location_forecast")
  let slm := parse_single_location_mapping rc is_single_location
  let ld := parse_location_data rc
  let vld := validate_location_data is_single_location ld
  let is_single_target := optTruthy (get_value rc "is_single_forecast_target")
  let all_period_ids := (fp.1.map (·.period_id)) ++ (dp.1.map (·.period_id))
  let tg := parse_targets rc all_period_ids
  let tuRaw := get_value rc "time_unit"
  let hzRaw := get_value rc "horizons"
  let e_hz := if !optTruthy hzRaw then [Finding.horizons_required] else []
  let cm := parse_column_mappings rc
  let obsRaw := get_value rc "target_data_observation_format"
  let obs := if optTruthy obsRaw then obsRaw.getD .null else .str "float"
  let w_obs := if optTruthy obsRaw then [] else [Finding.observation_format_defaulted]
  let models0 := parse_models rc
  let vc := validate_and_assign_model_colors models0
  let pis := parse_prediction_intervals rc
  let eis := parse_evaluation_intervals rc
  let naming := (get_value rc "model_output_data_file_naming_standard").getD (.str "ISODate")
  let baseline := get_value rc "baseline_model_for_relative_WIS"
  let vb := validate_baseline_model baseline vc.1
  { target_data_link := target_data_link,
    model_output_link := model_output_link,
    forecast_periods := fp.1,
    dynamic_periods := dp.1,
    is_single_location := is_single_location,
    single_location_mapping := slm,
    location_data := ld,
    is_single_target := is_single_target,
    targets := tg.1,
    time_unit := tuRaw,
    horizons := hzRaw,
    column_mapping := cm,
    target_data_observation_format := obs,
    models := vc.1,
    prediction_intervals := pis.1,
    evaluation_intervals := eis.1,
    model_output_naming_standard := naming,
    baseline_model_for_relative_wis := baseline,
    validation_errors :=
      e_links ++ fp.2 ++ dp.2 ++ vfp.1 ++ vld.1 ++ tg.2.1 ++ vtu.1 ++ e_hz ++ pis.2,
    validation_warnings :=
      vfp.2 ++ vld.2 ++ tg.2.2 ++ vtu.2 ++ w_obs ++ vc.2 ++ eis.2 ++ vb.2 }

/-- Embeds the body of `_parse_and_validate` up to (but excluding) the final
aggregate check: the static-period parse raises first (uncaught date-string
`ValueError`, at line 185), the time-unit rule second (`TypeError`, at line
208); everything else appends findings. -/
def build_config (rc : RawConfig) (env : Env) : Except PyExc DashboardConfig :=
  match parse_forecast_periods rc with
  | .error e => .error e
  | .ok fp =>
    match time_unit_step rc with
    | .error e => .error e
    | .ok vtu => .ok (assemble_config rc env fp vtu)

/-- How construction can fail: an exception propagating out of an individual
parsing or validation step, or the aggregate
`ValueError("Configuration validation failed")` at lines 251-253. -/
inductive BuildError where
  | exc (e : PyExc)
  | invalid (errors : List Finding)
  deriving DecidableEq

/-- Embeds construction (`DashboardConfig.__init__` over an already loaded
root list): a raising step propagates; otherwise `_parse_and_validate`
raises the aggregate failure exactly when the accumulated error list is
non-empty at its end. -/
def parse_and_validate (rc : RawConfig) (env : Env) : Except BuildError DashboardConfig :=
  match build_config rc env with
  | .error e => .error (.exc e)
  | .ok c =>
    if c.validation_errors.isEmpty then .ok c else .error (.invalid c.validation_errors)

/-! ### The embedding's document-shape domain

The parser iterates several configuration values without an `isinstance`
guard; iterating a non-iterable scalar (`int`, `bool`, `None`, a date) there
raises `TypeError` in Python, while iterating a string or a mapping yields
items the surrounding `isinstance(.., dict)` guards skip — indistinguishable
from an empty list, which is how the embedding treats every non-list.
`docOk` is the domain on which the embedding therefore agrees with the
source: every unguardedly iterated value is iterable, `uses_output_type_ids`
is a list (its elements are iterated inside `__post_init__` where a string
would be walked character by character), and period dates are date or string
scalars (other types are carried raw by the source into later comparisons).
`time_unit` is deliberately unconstrained: its `TypeError` path is modelled
faithfully. -/

/-- First-occurrence deduplication by a key, the semantics of
`pandas.drop_duplicates(keep="first")`, `Series.unique()` and Python `set`
accumulation (up to the subsequent sort). -/
def dedupByKey {α κ : Type _} [DecidableEq κ] (k : α → κ) : List κ → List α → List α
  | _, [] => []
  | seen, e :: rest =>
    if k e ∈ seen then dedupByKey k seen rest
    else e :: dedupByKey k (k e :: seen) rest

/-- Embeds `DashboardConfig.get_all_quantiles`: the median plus every display
and evaluation quantile, deduplicated (Python `set`) and sorted ascending by
numeric value. -/
def get_all_quantiles (c : DashboardConfig) : List String :=
  let all := "0.5" :: (c.prediction_intervals.foldl (fun acc i => acc ++ i.output_type_ids) []
                        ++ c.evaluation_intervals.foldl (fun acc i => acc ++ i.output_type_ids) [])
  List.insertionSort qle (dedupByKey (fun s => s) [] all)

/-! ### Data processor (`scripts/data_processor.py`)

Frames are lists of row structures plus column-presence flags (a pandas
column either exists for every row or for none). Rows are embedded after the
user→canonical rename, with dates already converted by `pd.to_datetime`. -/

/-- A target-data row after renaming; `observation` is kept as the raw field
content, and the location columns are meaningful only when the frame's flags
say they exist. -/
structure TargetRow where
  date : Int
  observation : String := ""
  location : String := ""
  location_name : String := ""
  deriving DecidableEq

structure TargetFrame where
  rows : List TargetRow
  has_location : Bool := false
  has_location_name : Bool := false
  deriving DecidableEq

/-- A model-output row after renaming and concatenation across models. -/
structure ModelRow where
  reference_date : Int
  target_end_date : Int
  horizon : Int := 0
  location : String := ""
  target : String := ""
  model : String := ""
  deriving DecidableEq

structure ModelFrame where
  rows : List ModelRow
  has_horizon : Bool := false
  has_location : Bool := false
  deriving DecidableEq

inductive ProcError where
  | invalid_time_unit
  deriving DecidableEq

/-- The per-row computation
`((df["target_end_date"] - df["reference_date"]).dt.days / time_unit).astype(int)`:
exact day difference divided by `time_unit` and truncated toward zero
(float-to-int cast semantics). -/
def derive_horizon (time_unit : Int) (r : ModelRow) : ModelRow :=
  { r with horizon := Int.tdiv (r.target_end_date - r.reference_date) time_unit }

/-- Embeds the horizon block of `DataProcessor._load_model_output_data`
(lines 170-178): when the canonical column is absent it is computed row-wise,
guarded by `time_unit > 0`; when present the frame passes through untouched. -/
def add_horizon_column (time_unit : Int) (f : ModelFrame) : Except ProcError ModelFrame :=
  if !f.has_horizon then
    if time_unit > 0 then
      .ok { f with rows := f.rows.map (derive_horizon time_unit), has_horizon := true }
    else .error .invalid_time_unit
  else .ok f

/-- Embeds the target-row slice of `_process_and_structure_data` (line 349):
`df[(df["date"] >= start) & (df["date"] <= end)]`. -/
def filter_target_rows (start_date end_date : Int) (rows : List TargetRow) : List TargetRow :=
  rows.filter (fun r => decide (start_date ≤ r.date) && decide (r.date ≤ end_date))

/-- Embeds the model-row slice of `_process_and_structure_data` (line 350):
`df[(df["reference_date"] >= start) & (df["reference_date"] <= end)]`. -/
def filter_model_rows (start_date end_date : Int) (rows : List ModelRow) : List ModelRow :=
  rows.filter (fun r => decide (start_date ≤ r.reference_date)
                          && decide (r.reference_date ≤ end_date))

/-- A `{location, location_name}` record of the reconciled catalog. -/
structure LocEntry where
  location : String
  location_name : String
  deriving DecidableEq

/-- Order on catalog entries used by `sort_values(by="location")`. -/
def locLe (a b : LocEntry) : Prop := strLe a.location b.location

instance : DecidableRel locLe := fun a b => by
  unfold locLe; infer_instance

instance : IsTotal LocEntry locLe := ⟨fun _ _ => IsTotal.total (r := strLe) _ _⟩

instance : IsTrans LocEntry locLe :=
  ⟨fun _ _ _ h₁ h₂ => IsTrans.trans (r := strLe) _ _ _ h₁ h₂⟩

/-- The reference lookup `self.config.us_state_fips_mapping.get(str(loc_id).zfill(2), "Unknown")`. -/
def fips_lookup (fips : List (String × String)) (loc_id : String) : String :=
  match fips.find? (fun p => p.1 = zfill2 loc_id) with
  | some p => p.2
  | none => "Unknown"

/-- Embeds `DataProcessor._detect_locations`. Modelled from the spec: the
`us_state_fips_mapping` attribute read here is never constructed in the
scripts — the spec scopes the FIPS code→name table as an external read-only
mapping — so it is supplied as the `fips` association-list parameter. -/
def detect_locations (fips : List (String × String)) (tf : TargetFrame) (mf : ModelFrame) :
    List LocEntry :=
  let target_locations :=
    if tf.has_location && tf.has_location_name then
      dedupByKey (fun e => (e.location, e.location_name)) []
        (tf.rows.map (fun r => LocEntry.mk r.location r.location_name))
    else []
  let model_locations :=
    if mf.has_location then
      (dedupByKey (fun s => s) [] (mf.rows.map (·.location))).map
        (fun loc_id => LocEntry.mk loc_id (fips_lookup fips loc_id))
    else []
  List.insertionSort locLe (dedupByKey (·.location) [] (target_locations ++ model_locations))

/-! ### Period-bound resolution (`_process_and_structure_data`, lines 317-344) -/

/-- Python attribute lookup on a `ForecastPeriod` dataclass instance: exactly
the fields the dataclass declares (`sub_display_value` is only ever its `None`
default in parsed configurations). Any other name raises `AttributeError`. -/
def ForecastPeriod.getattr? (p : ForecastPeriod) : String → Option Yaml
  | "period_id" => some (.str p.period_id)
  | "display_string" => some (.str p.display_string)
  | "start_date" => some (.date p.start_date)
  | "end_date" => some (.date p.end_date)
  | "is_dynamic" => some (.bool p.is_dynamic)
  | "sub_display_value" => some .null
  | "time_anchor" => some (match p.time_anchor with
                           | some ta => .dict ta
                           | none => .null)
  | "range_calculation" => some (match p.range_calculation with
                                 | some n => .int n
                                 | none => .null)
  | _ => none

/-- Embeds the per-period bound computation of `_process_and_structure_data`
(lines 317-344), with the attribute access `period.is_special_period` as a
dynamic lookup like every Python attribute read; `.ok none` is the "Skipping"
outcome the source logs as a warning, `.ok (some (start, end))` the resolved
bounds fed to the filters. -/
def resolve_period_bounds (p : ForecastPeriod) (freshest_target freshest_model : Option Int)
    (time_unit : Int) : Except PyExc (Option (Int × Int)) :=
  match p.getattr? "is_special_period" with
  | none => .error (.attribute_error "is_special_period")
  | some flag =>
    if flag.truthy then
      match p.time_anchor with
      | none => .ok none
      | some ta =>
        if ta.isEmpty then .ok none
        else
          let anchor_mode := lookupKey ta "anchor_mode"
          let anchor_date? :=
            if isStrVal anchor_mode "model-output" then some freshest_model
            else if isStrVal anchor_mode "target-data" then some freshest_target
            else none
          match anchor_date? with
          | none => .ok none
          | some ad? =>
            match ad? with
            | none => .ok none
            | some ad =>
              match (lookupKey ta "range_calculation").bind Yaml.asInt? with
              | some rcalc => .ok (some (ad + rcalc * time_unit, ad))
              | none => .error .type_error
    else .ok (some (p.start_date, p.end_date))

/-! ### Concrete documents used to evaluate the embedding -/

/-- No `target-data/` or `model-output/` directory next to the config file. -/
def envNone : Env := ⟨false, false⟩

/-- A minimal, otherwise-valid configuration document with single-location
mode enabled and no `single_location_mapping` entry anywhere. -/
def rcSingleLocNoMapping : RawConfig :=
  [ .dict [("is_single_location_forecast", .bool true)],
    .dict [("forecast_periods", .list
      [ .dict [("p2024", .list
          [ .dict [("display_string", .str "2024 Season")],
            .dict [("start_date", .date (mkDate 2024 1 1))],
            .dict [("end_date", .date (mkDate 2024 1 31))] ])] ])],
    .dict [("targets", .list
      [ .dict [("hospitalizations", .list
          [ .dict [("corresponding_key_in_model_output_target_column", .str "hosp")],
            .dict [("for_forecast_periods", .list [.str "p2024"])] ])] ])],
    .dict [("time_unit", .int 7)],
    .dict [("horizons", .list [.int 0, .int 1, .int 2])],
    .dict [("available_models", .list
      [ .dict [("ModelA", .list [ .dict [("color_hex", .str "#4CAF50")] ])] ])],
    .dict [("prediction_intervals", .list
      [ .dict [("50", .list
          [ .dict [("uses_output_type_ids", .list [.str "0.25", .str "0.75"])] ])] ])],
    .dict [("baseline_model_for_relative_WIS", .str "ModelA")] ]

/-- The same minimal valid document with the
`baseline_model_for_relative_WIS` entry removed entirely. -/
def rcNoBaseline : RawConfig :=
  [ .dict [("is_single_location_forecast", .bool true)],
    .dict [("forecast_periods", .list
      [ .dict [("p2024", .list
          [ .dict [("display_string", .str "2024 Season")],
            .dict [("start_date", .date (mkDate 2024 1 1))],
            .dict [("end_date", .date (mkDate 2024 1 31))] ])] ])],
    .dict [("targets", .list
      [ .dict [("hospitalizations", .list
          [ .dict [("corresponding_key_in_model_output_target_column", .str "hosp")],
            .dict [("for_forecast_periods", .list [.str "p2024"])] ])] ])],
    .dict [("time_unit", .int 7)],
    .dict [("horizons", .list [.int 0, .int 1, .int 2])],
    .dict [("available_models", .list
      [ .dict [("ModelA", .list [ .dict [("color_hex", .str "#4CAF50")] ])] ])],
    .dict [("prediction_intervals", .list
      [ .dict [("50", .list
          [ .dict [("uses_output_type_ids", .list [.str "0.25", .str "0.75"])] ])] ])] ]

/-- A document whose two root entries share the top-level key
`links_to_hubverse_compatible_data`; only the second carries
`target_data_link`. -/
def rcDupParent : RawConfig :=
  [ .dict [("links_to_hubverse_compatible_data", .list
      [ .dict [("model_output_link", .int 1)] ])],
    .dict [("links_to_hubverse_compatible_data", .list
      [ .dict [("target_data_link", .int 2)] ])] ]

/-! ## Theorems -/

/-! ### Lookup characterization (`_get_value` / `_get_nested_value`) -/

theorem get_value_eq_find (rc : RawConfig) (key : String) :
    get_value rc key =
      (rc.find? (fun item => (item.dGet? key).isSome)).bind (fun item => item.dGet? key) := by
  induction rc with
  | nil => rfl
  | cons item rest ih =>
    cases h : item.dGet? key with
    | some v => simp [get_value, List.find?_cons, h]
    | none => simp [get_value, List.find?_cons, h, ih]

/-- The per-entry child extraction `_get_nested_value` performs. -/
theorem get_nested_value_eq_head (rc : RawConfig) (parent child : String) :
    get_nested_value rc parent child =
      (rc.filterMap (fun item =>
        match item.dGet? parent with
        | some (.list pd) => findChild pd child
        | _ => none)).head? := by
  induction rc with
  | nil => rfl
  | cons item rest ih =>
    cases hp : item.dGet? parent with
    | none => simp [get_nested_value, List.filterMap_cons, hp, ih]
    | some v =>
      cases v with
      | list pd =>
        cases hc : findChild pd child with
        | some w => simp [get_nested_value, List.filterMap_cons, hp, hc]
        | none => simp [get_nested_value, List.filterMap_cons, hp, hc, ih]
      | str s => simp [get_nested_value, List.filterMap_cons, hp, ih]
      | int n => simp [get_nested_value, List.filterMap_cons, hp, ih]
      | bool b => simp [get_nested_value, List.filterMap_cons, hp, ih]
      | date d => simp [get_nested_value, List.filterMap_cons, hp, ih]
      | dict xs => simp [get_nested_value, List.filterMap_cons, hp, ih]
      | null => simp [get_nested_value, List.filterMap_cons, hp, ih]

/-- C10 (amended): `_get_value` returns the value from the earliest root
entry containing the key, silently ignoring later duplicates; but
`_get_nested_value` returns the child value from the earliest root entry that
both contains the top-level key and actually carries the child key inside its
list — when earlier entries with that top-level key lack the child, a later
duplicate entry is consulted rather than ignored. -/
theorem c10_lookup_uses_earliest_entry (rc : RawConfig) (key parent child : String) :
    (get_value rc key =
       (rc.find? (fun item => (item.dGet? key).isSome)).bind (fun item => item.dGet? key))
    ∧ (get_nested_value rc parent child =
       (rc.filterMap (fun item =>
         match item.dGet? parent with
         | some (.list pd) => findChild pd child
         | _ => none)).head?) :=
  ⟨get_value_eq_find rc key, get_nested_value_eq_head rc parent child⟩

/-- C10 (counterexample): with two root entries sharing the top-level key
`links_to_hubverse_compatible_data`, where only the second carries
`target_data_link`, the nested lookup returns the second entry's value — the
later duplicate root entry is not ignored, contradicting the claim that every
lookup answers from the earliest entry containing the top-level key. -/
theorem c10_nested_lookup_scans_later_duplicate :
    get_nested_value rcDupParent "links_to_hubverse_compatible_data" "target_data_link"
      = some (.int 2)
    ∧ (rcDupParent.head?.map (fun item =>
         (item.dGet? "links_to_hubverse_compatible_data").isSome)) = some true
    ∧ findChild [Yaml.dict [("model_output_link", .int 1)]] "target_data_link" = none :=
  ⟨rfl, rfl, rfl⟩

/-! ### Horizon derivation (`_load_model_output_data`) -/

/-- C4: when the canonical `horizon` column is absent, each row's horizon is
the day difference `target_end_date - reference_date` divided by `time_unit`
and truncated toward zero; the load fails for `time_unit ≤ 0`; when the
column is present the frame passes through unchanged; and on the spec's
instance (`time_unit` 7, reference 2024-08-03, target end 2024-08-17) the
derived horizon is 2. -/
theorem c4_horizon_derivation (time_unit : Int) (f : ModelFrame) :
    (f.has_horizon = false → 0 < time_unit →
      add_horizon_column time_unit f =
        .ok { f with
              rows := f.rows.map (fun r =>
                { r with horizon := Int.tdiv (r.target_end_date - r.reference_date) time_unit }),
              has_horizon := true })
    ∧ (f.has_horizon = false → time_unit ≤ 0 →
        add_horizon_column time_unit f = .error .invalid_time_unit)
    ∧ (f.has_horizon = true → add_horizon_column time_unit f = .ok f)
    ∧ Int.tdiv (mkDate 2024 8 17 - mkDate 2024 8 3) 7 = 2 := by
  refine ⟨?_, ?_, ?_, by decide⟩
  · intro hh ht
    have ht' : (time_unit > 0) = True := by simp [ht]
    simp [add_horizon_column, derive_horizon, hh, ht']
  · intro hh ht
    have ht' : ¬ (time_unit > 0) := by omega
    simp [add_horizon_column, hh, ht']
  · intro hh
    simp [add_horizon_column, hh]

/-- C4 (witness): the derivation applied to one concrete row with the spec's
dates and `time_unit = 7` yields horizon 2. -/
theorem c4_horizon_derivation_witness :
    add_horizon_column 7
        { rows := [{ reference_date := mkDate 2024 8 3, target_end_date := mkDate 2024 8 17 }],
          has_horizon := false }
      = .ok { rows := [{ reference_date := mkDate 2024 8 3,
                         target_end_date := mkDate 2024 8 17, horizon := 2 }],
              has_horizon := true } := by
  have h := (c4_horizon_derivation 7
    { rows := [{ reference_date := mkDate 2024 8 3, target_end_date := mkDate 2024 8 17 }],
      has_horizon := false }).1 rfl (by decide)
  exact h.trans (by rfl)

/-! ### Period-bound resolution (`_process_and_structure_data`) -/

/-- C5 (code evaluated at the failing input): for every period — static or
dynamic — and any freshest dates and time unit, the resolution code raises
`AttributeError` on its very first step, because it reads
`period.is_special_period` while the `ForecastPeriod` dataclass only defines
`is_dynamic`. No period's bounds are ever produced, in particular a static
period's stored bounds are not returned. -/
theorem c5_resolution_raises_attribute_error
    (p : ForecastPeriod) (freshest_target freshest_model : Option Int) (time_unit : Int) :
    resolve_period_bounds p freshest_target freshest_model time_unit
      = .error (.attribute_error "is_special_period")
    ∧ p.getattr? "is_special_period" = none
    ∧ p.getattr? "is_dynamic" = some (.bool p.is_dynamic) := by
  exact ⟨rfl, rfl, rfl⟩

/-! ### Period partitioning (`_process_and_structure_data`, lines 346-350) -/

/-- C6: given resolved bounds, the partition retains exactly the target rows
whose `date` lies in `[start, end]` and the model rows whose `reference_date`
lies in `[start, end]`, both boundaries inclusive; on the spec's example
period 2024-01-01 to 2024-01-31 with rows dated 2023-12-31, 2024-01-15 and
2024-02-01, only the 2024-01-15 row survives. -/
theorem c6_period_partition_inclusive
    (start_date end_date : Int) (trows : List TargetRow) (mrows : List ModelRow) :
    (∀ r, r ∈ filter_target_rows start_date end_date trows ↔
       r ∈ trows ∧ start_date ≤ r.date ∧ r.date ≤ end_date)
    ∧ (∀ r, r ∈ filter_model_rows start_date end_date mrows ↔
       r ∈ mrows ∧ start_date ≤ r.reference_date ∧ r.reference_date ≤ end_date)
    ∧ filter_target_rows (mkDate 2024 1 1) (mkDate 2024 1 31)
        [{ date := mkDate 2023 12 31 }, { date := mkDate 2024 1 15 }, { date := mkDate 2024 2 1 }]
      = [{ date := mkDate 2024 1 15 }] := by
  refine ⟨?_, ?_, by decide⟩
  · intro r
    simp [filter_target_rows, List.mem_filter, and_assoc]
  · intro r
    simp [filter_model_rows, List.mem_filter, and_assoc]

/-! ### Single-location mapping (C2) -/

/-- C2 (counterexample): a complete, otherwise-valid document with
single-location mode enabled and no `single_location_mapping` entry parses
with an empty error list and construction succeeds — no error is recorded for
the missing mapping, contradicting the claim that exactly one error is
recorded and construction fails. -/
theorem c2_single_location_no_mapping_counterexample :
    ∃ cfg, build_config rcSingleLocNoMapping envNone = .ok cfg
      ∧ cfg.is_single_location = true
      ∧ cfg.single_location_mapping = none
      ∧ cfg.validation_errors = []
      ∧ parse_and_validate rcSingleLocNoMapping envNone = .ok cfg :=
  ⟨_, rfl, rfl, rfl, rfl, rfl⟩

/-- C2 (amended): in single-location mode location validation records nothing
at all — a missing `single_location_mapping` is not an error — while with
single-location mode disabled the only location error is the one requiring
`location_data` (CSV path or mapping), recorded exactly once when both are
absent; the single-location mapping itself is never even parsed in that
mode.  -/
theorem c2_single_location_mapping_never_required (ld : LocationData) (rc : RawConfig) :
    validate_location_data true ld = ([], [])
    ∧ (validate_location_data false ld).1 =
        (if !optTruthy ld.csv_path
            && !(match ld.manual_mapping with
                 | some m => !m.isEmpty
                 | none => false)
         then [Finding.location_data_missing] else [])
    ∧ parse_single_location_mapping rc false = none := by
  refine ⟨rfl, ?_, rfl⟩
  by_cases h : (!optTruthy ld.csv_path
      && !(match ld.manual_mapping with
           | some m => !m.isEmpty
           | none => false)) = true
  · simp only [validate_location_data, h, Bool.false_eq_true, if_false, if_true]
  · simp only [validate_location_data, Bool.false_eq_true, if_false,
      eq_false_of_ne_true h]

/-! ### Baseline model (C3) -/

/-- C3 (counterexample): a complete, otherwise-valid document with no
`baseline_model_for_relative_WIS` entry parses with an empty error list —
only a warning is recorded — and construction succeeds, contradicting the
claim that a missing baseline is an error that makes construction fail. -/
theorem c3_baseline_missing_counterexample :
    ∃ cfg, build_config rcNoBaseline envNone = .ok cfg
      ∧ cfg.baseline_model_for_relative_wis = none
      ∧ cfg.validation_errors = []
      ∧ cfg.validation_warnings = [.observation_format_defaulted, .baseline_missing]
      ∧ parse_and_validate rcNoBaseline envNone = .ok cfg :=
  ⟨_, rfl, rfl, rfl, rfl, rfl⟩

/-- C3 (amended): baseline validation never records an error: a missing (or
falsy) baseline records exactly one missing-baseline warning, and a baseline
naming a model outside the configured list records exactly one
unknown-baseline warning; construction never fails on account of the
baseline. -/
theorem c3_baseline_model_only_warns (baseline : Option Yaml) (models : List ModelConfig) :
    (validate_baseline_model baseline models).1 = []
    ∧ (optTruthy baseline = false →
        (validate_baseline_model baseline models).2 = [Finding.baseline_missing])
    ∧ (∀ s, baseline = some (.str s) → optTruthy baseline = true →
        s ∉ models.map (·.model_name) →
        (validate_baseline_model baseline models).2 = [Finding.baseline_not_in_models]) := by
  refine ⟨?_, ?_, ?_⟩
  · unfold validate_baseline_model
    by_cases h : optTruthy baseline = true
    · simp only [h, Bool.not_true, Bool.false_eq_true, if_false]
      split <;> rfl
    · simp only [eq_false_of_ne_true h, Bool.not_false, if_true]
  · intro h
    simp [validate_baseline_model, h]
  · intro s hb ht hs
    subst hb
    have hc : ((models.map (·.model_name)).contains s) = false := by
      simpa using hs
    unfold validate_baseline_model
    simp only [ht, Bool.not_true, Bool.false_eq_true, if_false, hc, Bool.not_false, if_true]

/-- C3 (witness): concrete instances of both warning branches, obtained from
the amended theorem. -/
theorem c3_baseline_model_only_warns_witness :
    (validate_baseline_model none []).1 = []
    ∧ (validate_baseline_model none []).2 = [Finding.baseline_missing]
    ∧ (validate_baseline_model (some (.str "X")) []).2 = [Finding.baseline_not_in_models] :=
  ⟨(c3_baseline_model_only_warns none []).1,
   (c3_baseline_model_only_warns none []).2.1 rfl,
   (c3_baseline_model_only_warns (some (.str "X")) []).2.2 "X" rfl rfl (by decide)⟩

/-! ### Aggregate validation policy (C1) -/

theorem mem_of_mem_dedupByKey {α κ : Type _} [DecidableEq κ] (k : α → κ) :
    ∀ (seen : List κ) (l : List α) (x : α), x ∈ dedupByKey k seen l → x ∈ l := by
  intro seen l
  induction l generalizing seen with
  | nil => intro x h; exact absurd h (by simp [dedupByKey])
  | cons e rest ih =>
    intro x h
    by_cases he : k e ∈ seen
    · simp only [dedupByKey, he, if_true] at h
      exact List.mem_cons_of_mem _ (ih _ _ h)
    · simp only [dedupByKey, he, if_false] at h
      rcases List.mem_cons.mp h with h | h
      · exact h ▸ List.mem_cons_self _ _
      · exact List.mem_cons_of_mem _ (ih _ _ h)

theorem dedupByKey_keys_nodup {α κ : Type _} [DecidableEq κ] (k : α → κ) :
    ∀ (seen : List κ) (l : List α),
      ((dedupByKey k seen l).map k).Nodup ∧ ∀ x ∈ dedupByKey k seen l, k x ∉ seen := by
  intro seen l
  induction l generalizing seen with
  | nil => simp [dedupByKey]
  | cons e rest ih =>
    by_cases he : k e ∈ seen
    · simp only [dedupByKey, he, if_true]
      exact ⟨(ih seen).1, fun x hx => (ih seen).2 x hx⟩
    · simp only [dedupByKey, he, if_false]
      refine ⟨?_, ?_⟩
      · rw [List.map_cons, List.nodup_cons]
        refine ⟨?_, (ih (k e :: seen)).1⟩
        intro hmem
        rcases List.mem_map.mp hmem with ⟨x, hx, hkx⟩
        exact (ih (k e :: seen)).2 x hx (hkx ▸ List.mem_cons_self _ _)
      · intro x hx
        rcases List.mem_cons.mp hx with h | h
        · exact h ▸ he
        · exact fun hseen => (ih (k e :: seen)).2 x h (List.mem_cons_of_mem _ hseen)

theorem dedupByKey_find? {α κ : Type _} [DecidableEq κ] (k : α → κ) (p : α → Bool)
    (compat : ∀ a b, k a = k b → p a = p b) :
    ∀ (seen : List κ) (l : List α),
      (∀ x ∈ l, p x = true → k x ∉ seen) →
      (dedupByKey k seen l).find? p = l.find? p := by
  intro seen l
  induction l generalizing seen with
  | nil => intro _; rfl
  | cons e rest ih =>
    intro hinv
    by_cases he : k e ∈ seen
    · have hpe : ¬ p e = true := by
        intro hpe
        exact hinv e (List.mem_cons_self _ _) hpe he
      simp only [dedupByKey, he, if_true, List.find?_cons_of_neg _ hpe]
      exact ih seen (fun x hx hpx => hinv x (List.mem_cons_of_mem _ hx) hpx)
    · simp only [dedupByKey, he, if_false]
      by_cases hpe : p e = true
      · rw [List.find?_cons_of_pos _ hpe, List.find?_cons_of_pos _ hpe]
      · rw [List.find?_cons_of_neg _ hpe, List.find?_cons_of_neg _ hpe]
        apply ih
        intro x hx hpx hmem
        rcases List.mem_cons.mp hmem with hk | hk
        · have := compat x e hk
          rw [hpx] at this
          exact hpe this.symm
        · exact hinv x (List.mem_cons_of_mem _ hx) hpx hk

theorem mem_dedupByKey_id {α : Type _} [DecidableEq α] :
    ∀ (seen : List α) (l : List α) (x : α),
      (x ∈ dedupByKey (fun s => s) seen l ↔ x ∈ l ∧ x ∉ seen) := by
  intro seen l
  induction l generalizing seen with
  | nil => simp [dedupByKey]
  | cons e rest ih =>
    intro x
    by_cases he : e ∈ seen
    · simp only [dedupByKey, he, if_true, ih]
      constructor
      · rintro ⟨hx, hns⟩
        exact ⟨List.mem_cons_of_mem _ hx, hns⟩
      · rintro ⟨hx, hns⟩
        rcases List.mem_cons.mp hx with rfl | hx
        · exact absurd he hns
        · exact ⟨hx, hns⟩
    · simp only [dedupByKey, he, if_false]
      constructor
      · intro hx
        rcases List.mem_cons.mp hx with rfl | hx
        · exact ⟨List.mem_cons_self _ _, he⟩
        · rcases (ih (e :: seen) x).mp hx with ⟨h1, h2⟩
          exact ⟨List.mem_cons_of_mem _ h1, fun hs => h2 (List.mem_cons_of_mem _ hs)⟩
      · rintro ⟨hx, hns⟩
        rcases List.mem_cons.mp hx with rfl | hx
        · exact List.mem_cons_self _ _
        · by_cases hxe : x = e
          · exact hxe ▸ List.mem_cons_self _ _
          · refine List.mem_cons_of_mem _ ((ih (e :: seen) x).mpr ⟨hx, ?_⟩)
            intro hm
            rcases List.mem_cons.mp hm with h | h
            · exact hxe h
            · exact hns h

theorem countP_key_eq_count_map {α κ : Type _} [DecidableEq κ] (k : α → κ) (c : κ) :
    ∀ l : List α, (l.countP (fun x => k x = c)) = (l.map k).count c := by
  intro l
  induction l with
  | nil => rfl
  | cons e rest ih =>
    by_cases h : k e = c
    · simp [List.countP_cons, List.count_cons, h, ih]
    · simp [List.countP_cons, List.count_cons, h, ih]

theorem foldl_append_eq_flatten {β γ : Type _} (f : β → List γ) :
    ∀ (l : List β) (acc : List γ),
      l.foldl (fun acc i => acc ++ f i) acc = acc ++ (l.map f).flatten := by
  intro l
  induction l with
  | nil => intro acc; simp
  | cons e rest ih => intro acc; simp [ih, List.append_assoc]

/-! ### Quantile roster (C9) -/

/-- C9: for every configuration, `get_all_quantiles` returns a duplicate-free
list, sorted ascending by numeric value, containing `"0.5"`, whose members
are exactly the union of the display intervals' quantiles, the evaluation
intervals' quantiles, and the median. -/
theorem c9_get_all_quantiles_sorted_union (c : DashboardConfig) :
    (get_all_quantiles c).Nodup
    ∧ List.Sorted qle (get_all_quantiles c)
    ∧ "0.5" ∈ get_all_quantiles c
    ∧ (∀ s, s ∈ get_all_quantiles c ↔
        (s = "0.5"
         ∨ (∃ i ∈ c.prediction_intervals, s ∈ i.output_type_ids)
         ∨ (∃ i ∈ c.evaluation_intervals, s ∈ i.output_type_ids))) := by
  have hall : ∀ s : String,
      (s ∈ "0.5" :: (c.prediction_intervals.foldl (fun acc i => acc ++ i.output_type_ids) []
          ++ c.evaluation_intervals.foldl (fun acc i => acc ++ i.output_type_ids) [])) ↔
      (s = "0.5"
       ∨ (∃ i ∈ c.prediction_intervals, s ∈ i.output_type_ids)
       ∨ (∃ i ∈ c.evaluation_intervals, s ∈ i.output_type_ids)) := by
    intro s
    rw [foldl_append_eq_flatten, foldl_append_eq_flatten]
    simp only [List.nil_append, List.mem_cons, List.mem_append, List.mem_flatten,
      List.mem_map]
    constructor
    · rintro (h | ⟨li, ⟨i, hi, rfl⟩, hs⟩ | ⟨li, ⟨i, hi, rfl⟩, hs⟩)
      · exact Or.inl h
      · exact Or.inr (Or.inl ⟨i, hi, hs⟩)
      · exact Or.inr (Or.inr ⟨i, hi, hs⟩)
    · rintro (h | ⟨i, hi, hs⟩ | ⟨i, hi, hs⟩)
      · exact Or.inl h
      · exact Or.inr (Or.inl ⟨_, ⟨i, hi, rfl⟩, hs⟩)
      · exact Or.inr (Or.inr ⟨_, ⟨i, hi, rfl⟩, hs⟩)
  have hperm := List.perm_insertionSort qle
    (dedupByKey (fun s => s) []
      ("0.5" :: (c.prediction_intervals.foldl (fun acc i => acc ++ i.output_type_ids) []
          ++ c.evaluation_intervals.foldl (fun acc i => acc ++ i.output_type_ids) [])))
  refine ⟨?_, ?_, ?_, ?_⟩
  · have hnd : (dedupByKey (fun s : String => s) []
        ("0.5" :: (c.prediction_intervals.foldl (fun acc i => acc ++ i.output_type_ids) []
            ++ c.evaluation_intervals.foldl (fun acc i => acc ++ i.output_type_ids) []))).Nodup := by
      have h := (dedupByKey_keys_nodup (fun s : String => s) []
        ("0.5" :: (c.prediction_intervals.foldl (fun acc i => acc ++ i.output_type_ids) []
            ++ c.evaluation_intervals.foldl (fun acc i => acc ++ i.output_type_ids) []))).1
      simpa using h
    exact hperm.symm.nodup hnd
  · exact List.sorted_insertionSort qle _
  · show "0.5" ∈ get_all_quantiles c
    unfold get_all_quantiles
    rw [hperm.mem_iff, mem_dedupByKey_id]
    exact ⟨List.mem_cons_self _ _, by simp⟩
  · intro s
    unfold get_all_quantiles
    rw [hperm.mem_iff, mem_dedupByKey_id]
    rw [← hall s]
    simp

/-! ### Duplicate period ids (C8) -/

/-- One validation-loop step changes the number of duplicate-id errors for
`i` by one exactly when the period carries id `i` and that id was already
seen. -/
theorem vfpStep_dup_countP (s : VFPState) (p : ForecastPeriod) (i : String) :
    ((vfpStep s p).errors).countP (fun f => f = Finding.dup_period_id i)
      = (s.errors).countP (fun f => f = Finding.dup_period_id i)
        + (if p.period_id = i ∧ p.period_id ∈ s.seen_ids then 1 else 0) := by
  unfold vfpStep
  simp only [List.countP_append]
  have h2 : (if !p.is_dynamic && decide (p.start_date > p.end_date) then
      [Finding.start_after_end p.period_id] else []).countP
        (fun f => f = Finding.dup_period_id i) = 0 := by
    split <;> simp [List.countP_cons]
  have h3 : (match p.time_anchor with
    | some ta =>
      if p.is_dynamic && !ta.isEmpty then
        match p.range_calculation with
        | some n =>
          (if isStrVal (lookupKey ta "anchor_on") "earliest" && decide (n < 0) then
             [Finding.earliest_negative_range p.period_id] else [])
          ++ (if isStrVal (lookupKey ta "anchor_on") "latest" && decide (n > 0) then
                [Finding.latest_positive_range p.period_id] else [])
        | none => []
      else []
    | none => []).countP (fun f => f = Finding.dup_period_id i) = 0 := by
    cases p.time_anchor with
    | none => rfl
    | some ta =>
      simp only []
      split
      · cases p.range_calculation with
        | none => rfl
        | some n =>
          simp only [List.countP_append]
          refine Nat.add_eq_zero.mpr ⟨?_, ?_⟩ <;> (split <;> simp [List.countP_cons])
      · rfl
  rw [h2, h3]
  simp only [Nat.add_zero]
  by_cases hseen : p.period_id ∈ s.seen_ids
  · by_cases hpi : p.period_id = i
    · subst hpi
      simp [hseen, List.countP_cons]
    · simp [hseen, hpi, List.countP_cons]
  · by_cases hpi : p.period_id = i
    · subst hpi
      simp [hseen]
    · simp [hseen, hpi]

/-- Accumulated duplicate-id error count over the whole loop. -/
theorem vfp_dup_count (i : String) :
    ∀ (l : List ForecastPeriod) (s : VFPState),
      ((l.foldl vfpStep s).errors).countP (fun f => f = Finding.dup_period_id i)
        = (s.errors).countP (fun f => f = Finding.dup_period_id i)
          + (if i ∈ s.seen_ids then (l.map (·.period_id)).count i
             else (l.map (·.period_id)).count i - 1) := by
  intro l
  induction l with
  | nil => intro s; simp
  | cons p rest ih =>
    intro s
    rw [List.foldl_cons, ih (vfpStep s p), vfpStep_dup_countP]
    have hseen' : (vfpStep s p).seen_ids = p.period_id :: s.seen_ids := rfl
    rw [hseen']
    by_cases hpi : p.period_id = i
    · subst hpi
      have hc : ((p :: rest).map (·.period_id)).count p.period_id
          = (rest.map (·.period_id)).count p.period_id + 1 := by
        simp [List.count_cons]
      have hmem : p.period_id ∈ p.period_id :: s.seen_ids := List.mem_cons_self _ _
      by_cases hseen : p.period_id ∈ s.seen_ids
      · rw [if_pos ⟨rfl, hseen⟩, if_pos hmem, if_pos hseen, hc]
        omega
      · have hni : ¬ (p.period_id = p.period_id ∧ p.period_id ∈ s.seen_ids) :=
          fun h => hseen h.2
        rw [if_neg hni, if_pos hmem, if_neg hseen, hc]
        have hpos : 0 < (rest.map (·.period_id)).count p.period_id
            ∨ (rest.map (·.period_id)).count p.period_id = 0 := by omega
        omega
    · have hni : ¬ (p.period_id = i ∧ p.period_id ∈ s.seen_ids) := fun h => hpi h.1
      have hc : ((p :: rest).map (·.period_id)).count i = (rest.map (·.period_id)).count i := by
        rw [List.map_cons, List.count_cons]
        simp [hpi]
      have hmemiff : (i ∈ p.period_id :: s.seen_ids) ↔ i ∈ s.seen_ids := by
        constructor
        · intro h
          rcases List.mem_cons.mp h with h | h
          · exact absurd h.symm hpi
          · exact h
        · exact List.mem_cons_of_mem _
      rw [if_neg hni, hc]
      by_cases hseen : i ∈ s.seen_ids
      · rw [if_pos (hmemiff.mpr hseen), if_pos hseen]
        omega
      · rw [if_neg (fun h => hseen (hmemiff.mp h)), if_neg hseen]
        omega

/-- C8: running `_validate_forecast_periods` over the concatenation of static
and dynamic periods reports one duplicate-id error per occurrence of an id
beyond its first — in particular, for a configuration in which exactly two
periods share `period_id` `i`, exactly one duplicate-id error for `i` is
recorded, never zero. -/
theorem c8_duplicate_period_id_reported
    (statics dynamics : List ForecastPeriod) (i : String) :
    (((validate_forecast_periods (statics ++ dynamics)).1).countP
        (fun f => f = Finding.dup_period_id i)
      = (((statics ++ dynamics).map (·.period_id)).count i) - 1)
    ∧ ((((statics ++ dynamics).map (·.period_id)).count i) = 2 →
        ((validate_forecast_periods (statics ++ dynamics)).1).countP
          (fun f => f = Finding.dup_period_id i) = 1) := by
  have h := vfp_dup_count i (statics ++ dynamics) {}
  have hbase : (validate_forecast_periods (statics ++ dynamics)).1
      = (((statics ++ dynamics).foldl vfpStep {}).errors) := rfl
  constructor
  · rw [hbase, h]
    simp
  · intro h2
    rw [hbase, h, h2]
    simp

/-- C8 (witness): one static period `"2024s"` and one dynamic period also
named `"2024s"` produce exactly one duplicate-id error for that id. -/
theorem c8_duplicate_period_id_reported_witness :
    ((validate_forecast_periods
        ([{ period_id := "2024s", display_string := "2024 season",
            start_date := mkDate 2024 1 1, end_date := mkDate 2024 5 1 }]
          ++ [{ period_id := "2024s", display_string := "last weeks",
                start_date := mkDate 2000 1 1, end_date := mkDate 2000 1 1,
                is_dynamic := true }])).1).countP
      (fun f => f = Finding.dup_period_id "2024s") = 1 :=
  (c8_duplicate_period_id_reported
      [{ period_id := "2024s", display_string := "2024 season",
         start_date := mkDate 2024 1 1, end_date := mkDate 2024 5 1 }]
      [{ period_id := "2024s", display_string := "last weeks",
         start_date := mkDate 2000 1 1, end_date := mkDate 2000 1 1,
         is_dynamic := true }] "2024s").2 (by decide)

/-! ### Location reconciliation (C7) -/

/-- When the concatenated catalog has a first entry with code `c`, the
deduplicated and sorted result keeps exactly that entry for `c`. -/
theorem dedup_sort_unique_entry (tl ml : List LocEntry) (c : String) (e0 : LocEntry) :
    (tl ++ ml).find? (fun e => e.location = c) = some e0 →
    ((List.insertionSort locLe (dedupByKey (·.location) [] (tl ++ ml))).countP
        (fun e => e.location = c) = 1
     ∧ ∀ e ∈ List.insertionSort locLe (dedupByKey (·.location) [] (tl ++ ml)),
         e.location = c → e = e0) := by
  intro hfind
  have hDfind : (dedupByKey (fun e : LocEntry => e.location) [] (tl ++ ml)).find?
      (fun e => e.location = c) = some e0 := by
    have h := dedupByKey_find? (fun e : LocEntry => e.location)
      (fun e : LocEntry => decide (e.location = c))
      (fun a b hk => by simp [hk]) [] (tl ++ ml)
      (fun x _ _ => List.not_mem_nil _)
    exact h.trans hfind
  have he0D : e0 ∈ dedupByKey (fun e : LocEntry => e.location) [] (tl ++ ml) :=
    List.mem_of_find?_eq_some hDfind
  have he0c : e0.location = c := by simpa using List.find?_some hDfind
  have hkeys := (dedupByKey_keys_nodup (fun e : LocEntry => e.location) [] (tl ++ ml)).1
  have hperm := List.perm_insertionSort locLe
    (dedupByKey (fun e : LocEntry => e.location) [] (tl ++ ml))
  constructor
  · have hcount' : (dedupByKey (fun e : LocEntry => e.location) [] (tl ++ ml)).countP
        (fun e => e.location = c)
        = ((dedupByKey (fun e : LocEntry => e.location) [] (tl ++ ml)).map
            (fun e => e.location)).count c :=
      countP_key_eq_count_map (fun e : LocEntry => e.location) c _
    rw [hperm.countP_eq, hcount']
    have hle := List.nodup_iff_count_le_one.mp hkeys c
    have hmem : c ∈ (dedupByKey (fun e : LocEntry => e.location) [] (tl ++ ml)).map
        (fun e => e.location) :=
      he0c ▸ List.mem_map_of_mem _ he0D
    have hpos := List.count_pos_iff.mpr hmem
    omega
  · intro e heL hec
    have heD : e ∈ dedupByKey (fun e : LocEntry => e.location) [] (tl ++ ml) := by
      simpa using heL
    exact List.inj_on_of_nodup_map hkeys heD he0D (by rw [hec, he0c])

/-- C7: the reconciled catalog is unique by location code and sorted
ascending by code; a code present in the target data (in particular one
present in both data families) keeps the target data's `location_name` in a
single entry; a code present only in the model output gets its name from the
FIPS reference lookup, with `"Unknown"` when the code is absent there. -/
theorem c7_location_reconciliation (fips : List (String × String)) (tf : TargetFrame)
    (mf : ModelFrame) :
    ((detect_locations fips tf mf).map (·.location)).Nodup
    ∧ List.Sorted locLe (detect_locations fips tf mf)
    ∧ (tf.has_location = true → tf.has_location_name = true →
       ∀ c, c ∈ tf.rows.map (·.location) →
         ((detect_locations fips tf mf).countP (fun e => e.location = c) = 1
          ∧ ∀ e ∈ detect_locations fips tf mf, e.location = c →
              some e.location_name
                = (tf.rows.find? (fun r => r.location = c)).map (·.location_name)))
    ∧ (mf.has_location = true →
       ∀ c, c ∈ mf.rows.map (·.location) →
         (tf.has_location = true → tf.has_location_name = true →
            c ∉ tf.rows.map (·.location)) →
         ((detect_locations fips tf mf).countP (fun e => e.location = c) = 1
          ∧ ∀ e ∈ detect_locations fips tf mf, e.location = c →
              e.location_name = fips_lookup fips c)) := by
  have hQ : detect_locations fips tf mf
      = List.insertionSort locLe (dedupByKey (·.location) []
          ((if tf.has_location && tf.has_location_name then
              dedupByKey (fun e => (e.location, e.location_name)) []
                (tf.rows.map (fun r => LocEntry.mk r.location r.location_name))
            else [])
            ++ (if mf.has_location then
                  (dedupByKey (fun s => s) [] (mf.rows.map (·.location))).map
                    (fun loc_id => LocEntry.mk loc_id (fips_lookup fips loc_id))
                else []))) := rfl
  refine ⟨?_, ?_, ?_, ?_⟩
  · rw [hQ]
    have hkeys := (dedupByKey_keys_nodup (·.location) []
      ((if tf.has_location && tf.has_location_name then
          dedupByKey (fun e => (e.location, e.location_name)) []
            (tf.rows.map (fun r => LocEntry.mk r.location r.location_name))
        else [])
        ++ (if mf.has_location then
              (dedupByKey (fun s => s) [] (mf.rows.map (·.location))).map
                (fun loc_id => LocEntry.mk loc_id (fips_lookup fips loc_id))
            else []))).1
    have hperm := (List.perm_insertionSort locLe (dedupByKey (·.location) []
      ((if tf.has_location && tf.has_location_name then
          dedupByKey (fun e => (e.location, e.location_name)) []
            (tf.rows.map (fun r => LocEntry.mk r.location r.location_name))
        else [])
        ++ (if mf.has_location then
              (dedupByKey (fun s => s) [] (mf.rows.map (·.location))).map
                (fun loc_id => LocEntry.mk loc_id (fips_lookup fips loc_id))
            else [])))).map (·.location)
    exact hperm.symm.nodup hkeys
  · rw [hQ]
    exact List.sorted_insertionSort locLe _
  · intro h1 h2 c hc
    have hflag : (tf.has_location && tf.has_location_name) = true := by rw [h1, h2]; rfl
    rcases List.mem_map.mp hc with ⟨r, hr, hrc⟩
    have hsome : (tf.rows.find? (fun r => r.location = c)).isSome :=
      List.find?_isSome.mpr ⟨r, hr, by simp [hrc]⟩
    obtain ⟨r0, hr0⟩ := Option.isSome_iff_exists.mp hsome
    have hfindtl : ((if tf.has_location && tf.has_location_name then
        dedupByKey (fun e => (e.location, e.location_name)) []
          (tf.rows.map (fun r => LocEntry.mk r.location r.location_name))
      else []) : List LocEntry).find? (fun e => e.location = c)
        = some (LocEntry.mk r0.location r0.location_name) := by
      rw [if_pos hflag]
      have hstep : (dedupByKey (fun e : LocEntry => (e.location, e.location_name)) []
          (tf.rows.map (fun r => LocEntry.mk r.location r.location_name))).find?
          (fun e => e.location = c)
          = (tf.rows.map (fun r => LocEntry.mk r.location r.location_name)).find?
              (fun e => e.location = c) :=
        dedupByKey_find? (fun e : LocEntry => (e.location, e.location_name))
          (fun e : LocEntry => decide (e.location = c))
          (fun a b hk => by
            have hl : a.location = b.location := congrArg Prod.fst hk
            simp [hl]) [] _ (fun x _ _ => List.not_mem_nil _)
      rw [hstep, List.find?_map]
      rw [show ((fun (e : LocEntry) => decide (e.location = c))
            ∘ (fun r => LocEntry.mk r.location r.location_name))
          = (fun (r : TargetRow) => decide (r.location = c)) from rfl]
      rw [hr0]
      rfl
    have hfind : (((if tf.has_location && tf.has_location_name then
        dedupByKey (fun e => (e.location, e.location_name)) []
          (tf.rows.map (fun r => LocEntry.mk r.location r.location_name))
      else [])
        ++ (if mf.has_location then
              (dedupByKey (fun s => s) [] (mf.rows.map (·.location))).map
                (fun loc_id => LocEntry.mk loc_id (fips_lookup fips loc_id))
            else []))).find? (fun e => e.location = c)
        = some (LocEntry.mk r0.location r0.location_name) := by
      rw [List.find?_append, hfindtl]
      rfl
    obtain ⟨hcount, huniq⟩ := dedup_sort_unique_entry _ _ c _ hfind
    rw [hQ]
    refine ⟨hcount, ?_⟩
    intro e heL hec
    rw [huniq e heL hec, hr0]
    rfl
  · intro h1 c hc hnotin
    have htlnone : ((if tf.has_location && tf.has_location_name then
        dedupByKey (fun e => (e.location, e.location_name)) []
          (tf.rows.map (fun r => LocEntry.mk r.location r.location_name))
      else []) : List LocEntry).find? (fun e => e.location = c) = none := by
      rw [List.find?_eq_none]
      intro e he hpc
      have hec : e.location = c := by simpa using hpc
      by_cases hflag : (tf.has_location && tf.has_location_name) = true
      · rw [if_pos hflag] at he
        have hand := Bool.and_eq_true_iff.mp hflag
        have he' := mem_of_mem_dedupByKey _ _ _ _ he
        rcases List.mem_map.mp he' with ⟨r, hr, hre⟩
        have hrc : r.location = c := by rw [← hec, ← hre]
        exact hnotin hand.1 hand.2 (List.mem_map.mpr ⟨r, hr, hrc⟩)
      · rw [if_neg hflag] at he
        exact absurd he (List.not_mem_nil _)
    have hfindml : ((if mf.has_location then
        (dedupByKey (fun s => s) [] (mf.rows.map (·.location))).map
          (fun loc_id => LocEntry.mk loc_id (fips_lookup fips loc_id))
      else []) : List LocEntry).find? (fun e => e.location = c)
        = some (LocEntry.mk c (fips_lookup fips c)) := by
      rw [if_pos h1]
      rw [List.find?_map]
      rw [show ((fun (e : LocEntry) => decide (e.location = c))
            ∘ (fun loc_id => LocEntry.mk loc_id (fips_lookup fips loc_id)))
          = (fun (id : String) => decide (id = c)) from rfl]
      have huniqmem : c ∈ dedupByKey (fun s => s) [] (mf.rows.map (·.location)) :=
        (mem_dedupByKey_id [] _ c).mpr ⟨hc, by simp⟩
      have hsome : ((dedupByKey (fun s => s) [] (mf.rows.map (·.location))).find?
          (fun id => id = c)).isSome :=
        List.find?_isSome.mpr ⟨c, huniqmem, by simp⟩
      obtain ⟨x, hx⟩ := Option.isSome_iff_exists.mp hsome
      have hxc : x = c := by simpa using List.find?_some hx
      subst hxc
      rw [hx]
      rfl
    have hfind : (((if tf.has_location && tf.has_location_name then
        dedupByKey (fun e => (e.location, e.location_name)) []
          (tf.rows.map (fun r => LocEntry.mk r.location r.location_name))
      else [])
        ++ (if mf.has_location then
              (dedupByKey (fun s => s) [] (mf.rows.map (·.location))).map
                (fun loc_id => LocEntry.mk loc_id (fips_lookup fips loc_id))
            else []))).find? (fun e => e.location = c)
        = some (LocEntry.mk c (fips_lookup fips c)) := by
      rw [List.find?_append, htlnone, hfindml]
      rfl
    obtain ⟨hcount, huniq⟩ := dedup_sort_unique_entry _ _ c _ hfind
    rw [hQ]
    refine ⟨hcount, ?_⟩
    intro e heL hec
    rw [huniq e heL hec]

/-- C7 (witness): the spec's example — target data declares code "01" named
"Alabama", model output carries code "01", the reference lookup says
"Alabama-X" — yields a single entry for "01" keeping the target-data name. -/
theorem c7_location_reconciliation_witness :
    ((detect_locations [("01", "Alabama-X")]
        { rows := [{ date := 0, location := "01", location_name := "Alabama" }],
          has_location := true, has_location_name := true }
        { rows := [{ reference_date := 0, target_end_date := 0, location := "01" }],
          has_location := true }).countP (fun e => e.location = "01") = 1)
    ∧ (∀ e ∈ detect_locations [("01", "Alabama-X")]
          { rows := [{ date := 0, location := "01", location_name := "Alabama" }],
            has_location := true, has_location_name := true }
          { rows := [{ reference_date := 0, target_end_date := 0, location := "01" }],
            has_location := true },
        e.location = "01" → some e.location_name = some "Alabama") := by
  have h := (c7_location_reconciliation [("01", "Alabama-X")]
      { rows := [{ date := 0, location := "01", location_name := "Alabama" }],
        has_location := true, has_location_name := true }
      { rows := [{ reference_date := 0, target_end_date := 0, location := "01" }],
        has_location := true }).2.2.1 rfl rfl "01" (by decide)
  refine ⟨h.1, ?_⟩
  intro e heL hec
  exact (h.2 e heL hec).trans (by decide)

end HubDash
